import Mathlib

/-!
Verification of the BlueBubbles-compatible bridge against its specification.

The development shallowly embeds the relevant JavaScript source:
* the timestamp codec `toClientTimestamp` / `unixMsToAppleNs`
  (src/services/daemon-events.js),
* the in-flight send-deduplication cache (`add` / `remove` / `find`),
* the REST and realtime send handlers that consult that cache,
* the message shaping function `toMessageResponse` (src/utils/envelope.js),
* the broadcast dedup `shouldEmitMessage` and the two delivery paths
  (SSE push and poll fallback) in src/server.js.

JavaScript numbers are embedded as exact values: a finite number is a
rational, and the non-finite values NaN / ±Infinity are explicit
constructors.  `Math.trunc` is truncation toward zero on rationals.
Host nondeterminism (`Date.now()`, `Math.random()`) is passed in as
explicit parameters.
-/

namespace Bridge

/-- A JavaScript number: either a finite value (embedded exactly as a
rational) or one of the non-finite doubles. -/
inductive JSNum where
  | nan : JSNum
  | posInf : JSNum
  | negInf : JSNum
  | num : ℚ → JSNum
deriving DecidableEq, Repr

/-- `Number.isFinite`. -/
def JSNum.isFinite : JSNum → Bool
  | .num _ => true
  | _ => false

/-- `Math.trunc`: truncation toward zero. -/
def jsTrunc (q : ℚ) : ℤ :=
  if 0 ≤ q then ⌊q⌋ else ⌈q⌉

/-- `const UNIX_EPOCH_2001_MS = 978307200000` — 2001-01-01 00:00:00 UTC
in milliseconds since the Unix epoch (src/services/daemon-events.js). -/
def UNIX_EPOCH_2001_MS : ℤ := 978307200000

/-- Embedding of `toClientTimestamp(value)` from
src/services/daemon-events.js.  The argument `none` stands for a
`null`/`undefined` input; `some j` for a numeric input `j`.

```js
function toClientTimestamp(value) {
  if (value == null || value === 0) return null;
  const v = Number(value);
  if (!Number.isFinite(v)) return null;
  if (v > 1e15) return Math.trunc(v / 1e6 + UNIX_EPOCH_2001_MS);
  if (v >= 1e12 && v <= 8640000000000000) return Math.trunc(v);
  if (v > 0) return Math.trunc(v / 1e6 + UNIX_EPOCH_2001_MS);
  return null;
}
``` -/
def toClientTimestamp (value : Option JSNum) : Option ℤ :=
  match value with
  | none => none
  | some j =>
    if j = JSNum.num 0 then none
    else
      match j with
      | .num v =>
        if v > 10 ^ 15 then
          some (jsTrunc (v / 10 ^ 6 + (UNIX_EPOCH_2001_MS : ℚ)))
        else if 10 ^ 12 ≤ v ∧ v ≤ 8640000000000000 then
          some (jsTrunc v)
        else if v > 0 then
          some (jsTrunc (v / 10 ^ 6 + (UNIX_EPOCH_2001_MS : ℚ)))
        else
          none
      | _ => none

/-- Embedding of `unixMsToAppleNs(unixMs)` from
src/services/daemon-events.js.

```js
function unixMsToAppleNs(unixMs) {
  if (unixMs == null || !Number.isFinite(unixMs)) return 0;
  const msSince2001 = Math.max(0, unixMs - UNIX_EPOCH_2001_MS);
  return Math.trunc(msSince2001 * 1e6);
}
``` -/
def unixMsToAppleNs (unixMs : Option JSNum) : ℤ :=
  match unixMs with
  | none => 0
  | some j =>
    match j with
    | .num v => jsTrunc (max 0 (v - (UNIX_EPOCH_2001_MS : ℚ)) * 10 ^ 6)
    | _ => 0

/-! Characterization of the codec on integer inputs (every value the
claims quantify over is an integer number of milliseconds or
nanoseconds). -/

theorem jsTrunc_intCast (n : ℤ) : jsTrunc (n : ℚ) = n := by
  unfold jsTrunc
  rcases le_or_lt 0 (n : ℚ) with h | h
  · rw [if_pos h, Int.floor_intCast]
  · rw [if_neg (not_le.mpr h), Int.ceil_intCast]

theorem jsTrunc_of_nonneg (q : ℚ) (h : 0 ≤ q) : jsTrunc q = ⌊q⌋ := by
  unfold jsTrunc
  rw [if_pos h]

/-- On a nonnegative integer input `n`, the truncated value
`Math.trunc(n / 1e6 + UNIX_EPOCH_2001_MS)` is the integer
`n / 10^6 + UNIX_EPOCH_2001_MS` (with flooring integer division). -/
theorem jsTrunc_div_add (n : ℤ) (hn : 0 ≤ n) :
    jsTrunc ((n : ℚ) / 10 ^ 6 + (UNIX_EPOCH_2001_MS : ℚ)) =
      n / 10 ^ 6 + UNIX_EPOCH_2001_MS := by
  have hq : (0 : ℚ) ≤ (n : ℚ) / 10 ^ 6 + (UNIX_EPOCH_2001_MS : ℚ) := by
    have h1 : (0 : ℚ) ≤ (n : ℚ) / 10 ^ 6 := by positivity
    have h2 : (0 : ℚ) ≤ (UNIX_EPOCH_2001_MS : ℚ) := by
      unfold UNIX_EPOCH_2001_MS; norm_num
    linarith
  rw [jsTrunc_of_nonneg _ hq, Int.floor_add_int]
  have hcast : ((10 : ℚ) ^ 6) = ((10 ^ 6 : ℕ) : ℚ) := by norm_num
  rw [hcast, Rat.floor_intCast_div_natCast]
  norm_num

/-- Integer characterization of `toClientTimestamp` on a finite integer
input. -/
theorem toClientTimestamp_int (n : ℤ) :
    toClientTimestamp (some (JSNum.num (n : ℚ))) =
      if n = 0 then none
      else if n > 10 ^ 15 then some (n / 10 ^ 6 + UNIX_EPOCH_2001_MS)
      else if 10 ^ 12 ≤ n ∧ n ≤ 8640000000000000 then some n
      else if n > 0 then some (n / 10 ^ 6 + UNIX_EPOCH_2001_MS)
      else none := by
  unfold toClientTimestamp
  dsimp only
  by_cases h0 : n = 0
  · subst h0; norm_num
  · have h0' : JSNum.num (n : ℚ) ≠ JSNum.num 0 := by
      simp only [ne_eq, JSNum.num.injEq]
      exact_mod_cast h0
    rw [if_neg h0', if_neg h0]
    have e15 : ((n : ℚ) > 10 ^ 15) ↔ (n > 10 ^ 15) := by exact_mod_cast Iff.rfl
    have e12 : ((10 : ℚ) ^ 12 ≤ (n : ℚ) ∧ (n : ℚ) ≤ 8640000000000000) ↔
        (10 ^ 12 ≤ n ∧ n ≤ 8640000000000000) := by exact_mod_cast Iff.rfl
    have epos : ((n : ℚ) > 0) ↔ (n > 0) := by exact_mod_cast Iff.rfl
    by_cases h1 : n > 10 ^ 15
    · rw [if_pos (e15.mpr h1), if_pos h1,
        jsTrunc_div_add n (le_of_lt (lt_trans (by norm_num) h1))]
    · rw [if_neg (fun hc => h1 (e15.mp hc)), if_neg h1]
      by_cases h2 : 10 ^ 12 ≤ n ∧ n ≤ 8640000000000000
      · rw [if_pos (e12.mpr h2), if_pos h2, jsTrunc_intCast]
      · rw [if_neg (fun hc => h2 (e12.mp hc)), if_neg h2]
        by_cases h3 : n > 0
        · rw [if_pos (epos.mpr h3), if_pos h3, jsTrunc_div_add n (le_of_lt h3)]
        · rw [if_neg (fun hc => h3 (epos.mp hc)), if_neg h3]

/-- Integer characterization of `unixMsToAppleNs` on a finite integer
input at or after the 2001 epoch. -/
theorem unixMsToAppleNs_int (m : ℤ) (hm : UNIX_EPOCH_2001_MS ≤ m) :
    unixMsToAppleNs (some (JSNum.num (m : ℚ))) =
      (m - UNIX_EPOCH_2001_MS) * 10 ^ 6 := by
  unfold unixMsToAppleNs
  dsimp only
  have hnn : (0 : ℚ) ≤ (m : ℚ) - (UNIX_EPOCH_2001_MS : ℚ) := by
    rw [sub_nonneg]
    exact_mod_cast hm
  rw [max_eq_right hnn]
  have : ((m : ℚ) - (UNIX_EPOCH_2001_MS : ℚ)) * 10 ^ 6 =
      (((m - UNIX_EPOCH_2001_MS) * 10 ^ 6 : ℤ) : ℚ) := by push_cast; ring
  rw [this, jsTrunc_intCast]

/-- Evaluation of `toClientTimestamp` on the genuinely upstream-native
range: inputs strictly above `1e15` take the Apple-nanoseconds branch. -/
theorem toClientTimestamp_ns (n : ℤ) (h : 10 ^ 15 < n) :
    toClientTimestamp (some (JSNum.num (n : ℚ))) =
      some (n / 10 ^ 6 + UNIX_EPOCH_2001_MS) := by
  rw [toClientTimestamp_int]
  rw [if_neg (by omega : ¬ n = 0), if_pos (by omega : n > 10 ^ 15)]

/-- Evaluation of `toClientTimestamp` on the plausible-milliseconds
range `[1e12, 8640000000000000]`: the input is returned as-is. -/
theorem toClientTimestamp_ms (n : ℤ) (h1 : 10 ^ 12 ≤ n)
    (h2 : n ≤ 10 ^ 15) :
    toClientTimestamp (some (JSNum.num (n : ℚ))) = some n := by
  rw [toClientTimestamp_int]
  rw [if_neg (by omega : ¬ n = 0), if_neg (by omega : ¬ n > 10 ^ 15),
    if_pos (⟨h1, by omega⟩ : 10 ^ 12 ≤ n ∧ n ≤ 8640000000000000)]

/-- Evaluation of `toClientTimestamp` on the small positive fallback
range `(0, 1e12)`: treated as nanoseconds since 2001. -/
theorem toClientTimestamp_small (n : ℤ) (h1 : 0 < n) (h2 : n < 10 ^ 12) :
    toClientTimestamp (some (JSNum.num (n : ℚ))) =
      some (n / 10 ^ 6 + UNIX_EPOCH_2001_MS) := by
  rw [toClientTimestamp_int]
  have hp : (10 : ℤ) ^ 12 ≤ 10 ^ 15 := by norm_num
  rw [if_neg (by omega : ¬ n = 0), if_neg (by omega : ¬ n > 10 ^ 15),
    if_neg (by omega : ¬ (10 ^ 12 ≤ n ∧ n ≤ 8640000000000000)),
    if_pos (by omega : n > 0)]

/-- C1 — counterexample.  For the integer millisecond value
`M = 978308200000` (one thousand seconds after the 2001 epoch offset,
so `M ≥ 978307200000`), the round trip
`toClientTimestamp(unixMsToAppleNs(M))` returns `1000000000000`,
which is strictly greater than `M`: the claimed round-trip equality and
the claimed `≤ M` bound both fail.  (`unixMsToAppleNs` yields
`1e12` nanoseconds, which the input-classification heuristic of
`toClientTimestamp` misreads as an already-milliseconds value.) -/
theorem C1_counterexample :
    UNIX_EPOCH_2001_MS ≤ 978308200000
    ∧ toClientTimestamp (some (JSNum.num
        ((unixMsToAppleNs (some (JSNum.num ((978308200000 : ℤ) : ℚ)))) : ℚ)))
        = some 1000000000000
    ∧ ¬ ((1000000000000 : ℤ) ≤ 978308200000) := by
  refine ⟨by unfold UNIX_EPOCH_2001_MS; norm_num, ?_, by norm_num⟩
  have h1 : unixMsToAppleNs (some (JSNum.num ((978308200000 : ℤ) : ℚ)))
      = 1000000000000 := by
    rw [unixMsToAppleNs_int _ (by unfold UNIX_EPOCH_2001_MS; norm_num)]
    unfold UNIX_EPOCH_2001_MS; norm_num
  rw [h1, toClientTimestamp_ms 1000000000000 (by norm_num) (by norm_num)]

/-- C1 (amended).  The round trip `toClientTimestamp(unixMsToAppleNs(M))`
returns exactly `M` for every integer client-milliseconds value `M` with
`978307200000 < M < 978307200000 + 10^6` or `M > 978307200000 + 10^9`;
in the window `978307200000 + 10^6 ≤ M ≤ 978307200000 + 10^9` the
milliseconds-range heuristic of `toClientTimestamp` misfires and the
round trip returns `(M − 978307200000)·10^6 > M` (and at
`M = 978307200000` it returns the sentinel `null`). -/
theorem C1_roundtrip_amended (M : ℤ)
    (h : (UNIX_EPOCH_2001_MS < M ∧ M < UNIX_EPOCH_2001_MS + 10 ^ 6)
        ∨ UNIX_EPOCH_2001_MS + 10 ^ 9 < M) :
    toClientTimestamp (some (JSNum.num
      ((unixMsToAppleNs (some (JSNum.num (M : ℚ)))) : ℚ))) = some M := by
  have hE : UNIX_EPOCH_2001_MS ≤ M := by
    have : (0 : ℤ) < 10 ^ 9 := by norm_num
    rcases h with ⟨h1, _⟩ | h1 <;> omega
  rw [unixMsToAppleNs_int M hE]
  rcases h with ⟨hlo, hhi⟩ | hbig
  · have h1 : 0 < (M - UNIX_EPOCH_2001_MS) * 10 ^ 6 := by
      have : 0 < M - UNIX_EPOCH_2001_MS := by omega
      positivity
    have h2 : (M - UNIX_EPOCH_2001_MS) * 10 ^ 6 < 10 ^ 12 := by
      have hd : M - UNIX_EPOCH_2001_MS < 10 ^ 6 := by omega
      calc (M - UNIX_EPOCH_2001_MS) * 10 ^ 6
          < 10 ^ 6 * 10 ^ 6 := by
            exact mul_lt_mul_of_pos_right hd (by norm_num)
        _ ≤ 10 ^ 12 := by norm_num
    rw [toClientTimestamp_small _ h1 h2,
      Int.mul_ediv_cancel _ (by norm_num : (10 : ℤ) ^ 6 ≠ 0)]
    congr 1
    omega
  · have h1 : 10 ^ 15 < (M - UNIX_EPOCH_2001_MS) * 10 ^ 6 := by
      have hd : 10 ^ 9 < M - UNIX_EPOCH_2001_MS := by omega
      calc (10 : ℤ) ^ 15 = 10 ^ 9 * 10 ^ 6 := by norm_num
        _ < (M - UNIX_EPOCH_2001_MS) * 10 ^ 6 :=
            mul_lt_mul_of_pos_right hd (by norm_num)
    rw [toClientTimestamp_ns _ h1,
      Int.mul_ediv_cancel _ (by norm_num : (10 : ℤ) ^ 6 ≠ 0)]
    congr 1
    omega

/-- Witness for the amended C1 round trip at the concrete input
`M = 979307200001 = 978307200000 + 10^9 + 1`. -/
theorem C1_roundtrip_amended_witness :
    toClientTimestamp (some (JSNum.num
      ((unixMsToAppleNs (some (JSNum.num ((979307200001 : ℤ) : ℚ)))) : ℚ)))
      = some 979307200001 :=
  C1_roundtrip_amended 979307200001
    (Or.inr (by unfold UNIX_EPOCH_2001_MS; norm_num))

/-- C2 — counterexample.  The forward conversion is not monotone across
the `1e15` classification boundary: for the upstream values
`V1 = 10^15` and `V2 = 10^15 + 10^6` (both valid moments in Apple
nanoseconds, about 11.6 days after 2001-01-01, one millisecond apart)
we have `V1 < V2` but `toClientTimestamp(V1) = 10^15` while
`toClientTimestamp(V2) = 979307200001 < 10^15`. -/
theorem C2_counterexample :
    (10 ^ 15 : ℤ) < 10 ^ 15 + 10 ^ 6
    ∧ toClientTimestamp (some (JSNum.num ((10 ^ 15 : ℤ) : ℚ)))
        = some (10 ^ 15)
    ∧ toClientTimestamp (some (JSNum.num ((10 ^ 15 + 10 ^ 6 : ℤ) : ℚ)))
        = some 979307200001
    ∧ ¬ ((10 ^ 15 : ℤ) ≤ 979307200001) := by
  refine ⟨by norm_num, ?_, ?_, by norm_num⟩
  · exact toClientTimestamp_ms _ (by norm_num) (by norm_num)
  · rw [toClientTimestamp_ns _ (by norm_num)]
    congr 1

/-- C2 (amended).  Whenever `toClientTimestamp` returns a number, that
number is non-negative; and the conversion is monotone on the genuinely
upstream-native range: for integer values `V1, V2 > 10^15` (the
threshold above which inputs are classified as Apple nanoseconds),
`V1 < V2` implies `toClientTimestamp(V1) ≤ toClientTimestamp(V2)`.
Monotonicity fails across the `1e15` classification boundary. -/
theorem C2_amended :
    (∀ q : ℚ, ∀ m : ℤ, toClientTimestamp (some (JSNum.num q)) = some m →
      0 ≤ m)
    ∧ (∀ v1 v2 : ℤ, 10 ^ 15 < v1 → v1 < v2 →
        ∃ m1 m2 : ℤ,
          toClientTimestamp (some (JSNum.num (v1 : ℚ))) = some m1
          ∧ toClientTimestamp (some (JSNum.num (v2 : ℚ))) = some m2
          ∧ m1 ≤ m2) := by
  constructor
  · intro q m hm
    have hE : (0 : ℚ) ≤ (UNIX_EPOCH_2001_MS : ℚ) := by
      unfold UNIX_EPOCH_2001_MS; norm_num
    unfold toClientTimestamp at hm
    dsimp only at hm
    by_cases h0 : JSNum.num q = JSNum.num 0
    · rw [if_pos h0] at hm; exact absurd hm (by simp)
    · rw [if_neg h0] at hm
      by_cases h1 : q > 10 ^ 15
      · rw [if_pos h1] at hm
        have hq : (0 : ℚ) ≤ q / 10 ^ 6 + (UNIX_EPOCH_2001_MS : ℚ) := by
          have : (0 : ℚ) ≤ q / 10 ^ 6 := by
            apply div_nonneg (by linarith) (by norm_num)
          linarith
        have := Option.some.inj hm
        rw [← this, jsTrunc_of_nonneg _ hq]
        exact Int.le_floor.mpr (by exact_mod_cast hq)
      · rw [if_neg h1] at hm
        by_cases h2 : 10 ^ 12 ≤ q ∧ q ≤ 8640000000000000
        · rw [if_pos h2] at hm
          have hq : (0 : ℚ) ≤ q := le_trans (by norm_num) h2.1
          have := Option.some.inj hm
          rw [← this, jsTrunc_of_nonneg _ hq]
          exact Int.le_floor.mpr (by exact_mod_cast hq)
        · rw [if_neg h2] at hm
          by_cases h3 : q > 0
          · rw [if_pos h3] at hm
            have hq : (0 : ℚ) ≤ q / 10 ^ 6 + (UNIX_EPOCH_2001_MS : ℚ) := by
              have : (0 : ℚ) ≤ q / 10 ^ 6 := by
                apply div_nonneg (by linarith) (by norm_num)
              linarith
            have := Option.some.inj hm
            rw [← this, jsTrunc_of_nonneg _ hq]
            exact Int.le_floor.mpr (by exact_mod_cast hq)
          · rw [if_neg h3] at hm; exact absurd hm (by simp)
  · intro v1 v2 h1 h12
    refine ⟨v1 / 10 ^ 6 + UNIX_EPOCH_2001_MS,
      v2 / 10 ^ 6 + UNIX_EPOCH_2001_MS,
      toClientTimestamp_ns v1 h1,
      toClientTimestamp_ns v2 (lt_trans h1 h12), ?_⟩
    have := Int.ediv_le_ediv (by norm_num : (0 : ℤ) < 10 ^ 6) (le_of_lt h12)
    omega

/-- Witness for the amended C2 at concrete inputs: non-negativity at the
integer input `10^12`, monotonicity at `V1 = 2·10^15 < V2 = 3·10^15`. -/
theorem C2_amended_witness :
    (0 : ℤ) ≤ 1000000000000
    ∧ ∃ m1 m2 : ℤ,
        toClientTimestamp (some (JSNum.num ((2000000000000000 : ℤ) : ℚ)))
          = some m1
        ∧ toClientTimestamp (some (JSNum.num ((3000000000000000 : ℤ) : ℚ)))
          = some m2
        ∧ m1 ≤ m2 :=
  ⟨C2_amended.1 ((1000000000000 : ℤ) : ℚ) 1000000000000
      (toClientTimestamp_ms 1000000000000 (by norm_num) (by norm_num)),
    C2_amended.2 2000000000000000 3000000000000000 (by norm_num)
      (by norm_num)⟩

/-- The exact (pre-truncation) client value computed by
`toClientTimestamp` for a positive finite input, branch by branch. -/
def clientExact (q : ℚ) : ℚ :=
  if q > 10 ^ 15 then q / 10 ^ 6 + (UNIX_EPOCH_2001_MS : ℚ)
  else if 10 ^ 12 ≤ q ∧ q ≤ 8640000000000000 then q
  else q / 10 ^ 6 + (UNIX_EPOCH_2001_MS : ℚ)

/-- C3 — confirmed.  `toClientTimestamp` is total (it is a function on
all inputs), returns the sentinel `null` on `null`/`undefined` input, on
`0`, on every non-finite input (`NaN`, `±Infinity`) and on every
negative input, and on every positive finite input it returns an integer
obtained by truncation toward zero of the exact branch value: the result
`m` satisfies `m ≤ exact < m + 1`, so it never rounds up. -/
theorem C3_total_sentinel_truncation :
    toClientTimestamp none = none
    ∧ toClientTimestamp (some JSNum.nan) = none
    ∧ toClientTimestamp (some JSNum.posInf) = none
    ∧ toClientTimestamp (some JSNum.negInf) = none
    ∧ toClientTimestamp (some (JSNum.num 0)) = none
    ∧ (∀ q : ℚ, q < 0 → toClientTimestamp (some (JSNum.num q)) = none)
    ∧ (∀ q : ℚ, 0 < q →
        ∃ m : ℤ, toClientTimestamp (some (JSNum.num q)) = some m
          ∧ (m : ℚ) ≤ clientExact q ∧ clientExact q < (m : ℚ) + 1) := by
  refine ⟨rfl, rfl, rfl, rfl, rfl, ?_, ?_⟩
  · intro q hq
    unfold toClientTimestamp
    dsimp only
    rw [if_neg (by simp only [ne_eq, JSNum.num.injEq]; exact ne_of_lt hq),
      if_neg (by linarith : ¬ q > 10 ^ 15),
      if_neg (by rintro ⟨h, -⟩; linarith :
        ¬ (10 ^ 12 ≤ q ∧ q ≤ 8640000000000000)),
      if_neg (by linarith : ¬ q > 0)]
  · intro q hq
    have hne : JSNum.num q ≠ JSNum.num 0 := by
      simp only [ne_eq, JSNum.num.injEq]
      exact ne_of_gt hq
    unfold toClientTimestamp clientExact
    dsimp only
    rw [if_neg hne]
    by_cases h1 : q > 10 ^ 15
    · rw [if_pos h1, if_pos h1]
      have hnn : (0 : ℚ) ≤ q / 10 ^ 6 + (UNIX_EPOCH_2001_MS : ℚ) := by
        have hE : (0 : ℚ) ≤ (UNIX_EPOCH_2001_MS : ℚ) := by
          unfold UNIX_EPOCH_2001_MS; norm_num
        have : (0 : ℚ) ≤ q / 10 ^ 6 :=
          div_nonneg (by linarith) (by norm_num)
        linarith
      exact ⟨_, rfl, by
        rw [jsTrunc_of_nonneg _ hnn]
        exact Int.floor_le _, by
        rw [jsTrunc_of_nonneg _ hnn]
        exact Int.lt_floor_add_one _⟩
    · rw [if_neg h1, if_neg h1]
      by_cases h2 : 10 ^ 12 ≤ q ∧ q ≤ 8640000000000000
      · rw [if_pos h2, if_pos h2]
        have hnn : (0 : ℚ) ≤ q := le_of_lt hq
        exact ⟨_, rfl, by
          rw [jsTrunc_of_nonneg _ hnn]
          exact Int.floor_le _, by
          rw [jsTrunc_of_nonneg _ hnn]
          exact Int.lt_floor_add_one _⟩
      · rw [if_neg h2, if_neg h2, if_pos hq]
        have hnn : (0 : ℚ) ≤ q / 10 ^ 6 + (UNIX_EPOCH_2001_MS : ℚ) := by
          have hE : (0 : ℚ) ≤ (UNIX_EPOCH_2001_MS : ℚ) := by
            unfold UNIX_EPOCH_2001_MS; norm_num
          have : (0 : ℚ) ≤ q / 10 ^ 6 :=
            div_nonneg (by linarith) (by norm_num)
          linarith
        exact ⟨_, rfl, by
          rw [jsTrunc_of_nonneg _ hnn]
          exact Int.floor_le _, by
          rw [jsTrunc_of_nonneg _ hnn]
          exact Int.lt_floor_add_one _⟩

/-- Witness for C3 at concrete inputs: the negative input `-5` and the
positive input `2·10^15`. -/
theorem C3_total_sentinel_truncation_witness :
    toClientTimestamp (some (JSNum.num (-5))) = none
    ∧ ∃ m : ℤ,
        toClientTimestamp (some (JSNum.num 2000000000000000)) = some m
        ∧ (m : ℚ) ≤ clientExact 2000000000000000
        ∧ clientExact 2000000000000000 < (m : ℚ) + 1 :=
  ⟨C3_total_sentinel_truncation.2.2.2.2.2.1 (-5) (by norm_num),
    C3_total_sentinel_truncation.2.2.2.2.2.2 2000000000000000 (by norm_num)⟩

/-! ## Send-dedup cache (src/unnamed/part_001)

```js
const items = [];
function add(tempGuid) {
  if (!tempGuid || typeof tempGuid !== 'string') return false;
  const existing = items.find(i => i.item === tempGuid);
  if (existing) return false;
  items.push({ date: Date.now(), item: tempGuid });
  return true;
}
function remove(tempGuid) {
  if (!tempGuid) return;
  const idx = items.findIndex(i => i.item === tempGuid);
  if (idx >= 0) items.splice(idx, 1);
}
function find(tempGuid) {
  if (!tempGuid) return null;
  const entry = items.find(i => i.item === tempGuid);
  return entry ? entry.item : null;
}
```

The mutable array `items` is threaded explicitly; tokens are strings
(the `typeof` guard restricts the JS input to strings, and the falsy
check `!tempGuid` becomes an emptiness test). `Date.now()` is a
parameter of `add`. -/

/-- One entry of the send cache: `{ date: Date.now(), item: tempGuid }`. -/
structure CacheEntry where
  date : ℤ
  item : String
deriving DecidableEq, Repr

/-- `add(tempGuid)`: returns the boolean result and the updated array. -/
def sendCacheAdd (items : List CacheEntry) (now : ℤ) (tempGuid : String) :
    Bool × List CacheEntry :=
  if tempGuid = "" then (false, items)
  else
    match items.find? (fun i => i.item = tempGuid) with
    | some _ => (false, items)
    | none => (true, items ++ [⟨now, tempGuid⟩])

/-- `remove(tempGuid)`: returns the updated array. -/
def sendCacheRemove (items : List CacheEntry) (tempGuid : String) :
    List CacheEntry :=
  if tempGuid = "" then items
  else
    match items.findIdx? (fun i => i.item = tempGuid) with
    | none => items
    | some idx => items.eraseIdx idx

/-- `find(tempGuid)`: returns the stored token or `null`. -/
def sendCacheFind (items : List CacheEntry) (tempGuid : String) :
    Option String :=
  if tempGuid = "" then none
  else
    match items.find? (fun i => i.item = tempGuid) with
    | some entry => some entry.item
    | none => none

/-- A token is live when some cache entry carries it. -/
def cacheLive (items : List CacheEntry) (t : String) : Prop :=
  ∃ e ∈ items, e.item = t

/-- Every token occurs in at most one entry (pairwise-distinct tokens);
this invariant holds of every state reachable by `add`/`remove` from the
initial empty array. -/
def tokenUnique (items : List CacheEntry) : Prop :=
  items.Pairwise (fun a b => a.item ≠ b.item)

theorem find?_eq_none_of_not_live (items : List CacheEntry) (t : String)
    (h : ¬ cacheLive items t) :
    items.find? (fun i => i.item = t) = none := by
  rw [List.find?_eq_none]
  intro e he
  simp only [decide_eq_true_eq]
  exact fun hc => h ⟨e, he, hc⟩

theorem findIdx?_eq_none_of_not_live (items : List CacheEntry) (t : String)
    (h : ¬ cacheLive items t) :
    items.findIdx? (fun i => i.item = t) = none := by
  rw [List.findIdx?_eq_none_iff]
  intro e he
  simp only [decide_eq_false_iff_not]
  exact fun hc => h ⟨e, he, hc⟩

/-- `add` on a state where the token is not yet live: inserts. -/
theorem add_of_not_live (items : List CacheEntry) (now : ℤ) (t : String)
    (ht : t ≠ "") (h : ¬ cacheLive items t) :
    sendCacheAdd items now t = (true, items ++ [⟨now, t⟩]) := by
  unfold sendCacheAdd
  rw [if_neg ht, find?_eq_none_of_not_live items t h]

/-- `add` on a state where the token is live: rejects, state unchanged. -/
theorem add_of_live (items : List CacheEntry) (now : ℤ) (t : String)
    (ht : t ≠ "") (h : cacheLive items t) :
    sendCacheAdd items now t = (false, items) := by
  unfold sendCacheAdd
  rw [if_neg ht]
  cases hf : items.find? (fun i => i.item = t) with
  | none =>
    exfalso
    rw [List.find?_eq_none] at hf
    obtain ⟨e, he, het⟩ := h
    exact hf e he (by simpa using het)
  | some e => rfl

/-- `remove` on a state where the token is absent: no-op. -/
theorem remove_of_not_live (items : List CacheEntry) (t : String)
    (h : ¬ cacheLive items t) :
    sendCacheRemove items t = items := by
  unfold sendCacheRemove
  by_cases ht : t = ""
  · rw [if_pos ht]
  · rw [if_neg ht, findIdx?_eq_none_of_not_live items t h]

/-- Removing the just-appended entry for a token that was not live
restores the original array. -/
theorem remove_append_of_not_live (items : List CacheEntry) (now : ℤ)
    (t : String) (ht : t ≠ "") (h : ¬ cacheLive items t) :
    sendCacheRemove (items ++ [⟨now, t⟩]) t = items := by
  unfold sendCacheRemove
  rw [if_neg ht, List.findIdx?_append, findIdx?_eq_none_of_not_live items t h]
  have h1 : ([(⟨now, t⟩ : CacheEntry)]).findIdx? (fun i => i.item = t)
      = some 0 := by
    simp [List.findIdx?_cons]
  rw [h1]
  simp only [Option.map_some', Option.none_or, Nat.zero_add]
  show (items ++ [(⟨now, t⟩ : CacheEntry)]).eraseIdx items.length = items
  rw [List.eraseIdx_eq_take_drop_succ, List.take_left]
  have h2 : items.length + 1 = (items ++ [(⟨now, t⟩ : CacheEntry)]).length := by
    simp
  rw [h2, List.drop_length, List.append_nil]

/-- C4 — confirmed.  For every non-empty token `T` and cache state in
which `T` is not live: `add(T)` returns `true` and makes `T` live; an
immediately repeated `add(T)` returns `false` and leaves the array
unchanged; `remove(T)` on a state where `T` is absent is a no-op, and
removing `T` right after adding it restores the original state (so
`remove` is idempotent on token-unique states), after which `add(T)`
returns `true` again; and `find(T)` is truthy exactly when `T` is live. -/
theorem C4_sendCache_contract (items : List CacheEntry) (now now' : ℤ)
    (T : String) (hT : T ≠ "") (h : ¬ cacheLive items T) :
    (sendCacheAdd items now T).1 = true
    ∧ cacheLive (sendCacheAdd items now T).2 T
    ∧ (sendCacheAdd (sendCacheAdd items now T).2 now' T).1 = false
    ∧ (sendCacheAdd (sendCacheAdd items now T).2 now' T).2 =
        (sendCacheAdd items now T).2
    ∧ sendCacheRemove items T = items
    ∧ sendCacheRemove ((sendCacheAdd items now T).2) T = items
    ∧ (sendCacheAdd (sendCacheRemove ((sendCacheAdd items now T).2) T)
        now' T).1 = true
    ∧ (∀ items' : List CacheEntry,
        ((sendCacheFind items' T).isSome ↔ cacheLive items' T)) := by
  have hadd := add_of_not_live items now T hT h
  have hlive : cacheLive (items ++ [⟨now, T⟩]) T :=
    ⟨⟨now, T⟩, List.mem_append_right items (List.mem_singleton.mpr rfl), rfl⟩
  have hrem := remove_append_of_not_live items now T hT h
  refine ⟨by rw [hadd], by rw [hadd]; exact hlive, ?_, ?_, ?_, ?_, ?_, ?_⟩
  · simp only [hadd]
    rw [add_of_live _ now' T hT hlive]
  · simp only [hadd]
    rw [add_of_live _ now' T hT hlive]
  · exact remove_of_not_live items T h
  · simp only [hadd]
    exact hrem
  · simp only [hadd, hrem]
    rw [add_of_not_live items now' T hT h]
  · intro items'
    unfold sendCacheFind
    rw [if_neg hT]
    cases hf : items'.find? (fun i => i.item = T) with
    | none =>
      simp only [Option.isSome_none, Bool.false_eq_true, false_iff]
      rw [List.find?_eq_none] at hf
      exact fun ⟨e, he, het⟩ => hf e he (by simpa using het)
    | some e =>
      simp only [Option.isSome_some, true_iff]
      have := List.find?_some hf
      have hmem := List.mem_of_find?_eq_some hf
      exact ⟨e, hmem, by simpa using this⟩

/-- Witness for C4 at a concrete token and the empty initial cache. -/
theorem C4_sendCache_contract_witness :
    (sendCacheAdd [] 0 "abc123").1 = true
    ∧ cacheLive (sendCacheAdd [] 0 "abc123").2 "abc123" :=
  ⟨(C4_sendCache_contract [] 0 0 "abc123" (by decide)
      (by rintro ⟨e, he, -⟩; simp at he)).1,
    (C4_sendCache_contract [] 0 0 "abc123" (by decide)
      (by rintro ⟨e, he, -⟩; simp at he)).2.1⟩

/-! ## Send handlers (src/unnamed/part_009 and src/events/socket-events.js)

Each handler is embedded as a pure function threading the send-cache
array.  Host nondeterminism is passed in: `now`/`rand` are the
`Date.now()` / `Math.random()...` parts of the fallback token, the
awaited upstream call `swiftDaemon.sendMessage` is an `Except` value
(`ok` = resolved, `error` = rejected), and `postThrow` models an
exception thrown while replying/broadcasting after the send resolved
(landing in the route's outer `catch`).  The reply is recorded as the
envelope's literal status / message / error text together with the exit
point taken. -/

/-- `String.prototype.trim`, on the character list so that concrete
instances evaluate. -/
def jsTrim (s : String) : String :=
  ⟨((s.data.dropWhile Char.isWhitespace).reverse.dropWhile
      Char.isWhitespace).reverse⟩

/-- JS truthiness of a nullable string: `null`/`undefined` and `''` are
falsy. -/
def optTruthy : Option String → Bool
  | some s => s ≠ ""
  | none => false

/-- `resolveAttachmentPaths` (src/utils/attachments.js) drops falsy
entries and resolves each remaining entry against the private-API
directory.  Path resolution is a host filesystem concern that maps each
entry to another path string one-to-one; it is embedded as the identity
on entries (the handlers only inspect the count and pass the list
through to the upstream call). -/
def resolveAttachmentPaths (paths : List String) : List String :=
  (paths.filter (fun p => p ≠ "")).map (fun p => p)

/-- The fallback idempotency token
`` `temp-${Date.now()}-${Math.random().toString(36).slice(2, 10)}` ``. -/
def fallbackToken (now : ℤ) (rand : String) : String :=
  "temp-" ++ toString now ++ "-" ++ rand

/-- `req.body?.tempGuid || fallback` — `||` takes the fallback on every
falsy value, including the empty string. -/
def tempGuidOrFallbackOf (bodyTempGuid : Option String) (now : ℤ)
    (rand : String) : String :=
  match bodyTempGuid with
  | some t => if t = "" then fallbackToken now rand else t
  | none => fallbackToken now rand

/-- Which return site of a send handler produced the reply. -/
inductive ExitPoint where
  | validationError   : ExitPoint
  | duplicateQueued   : ExitPoint
  | saveFailed        : ExitPoint
  | buildFailed       : ExitPoint
  | sendOk            : ExitPoint
  | sendFailed        : ExitPoint
  | handlerCrashed    : ExitPoint
deriving DecidableEq, Repr

/-- Observable outcome of one send-handler run. -/
structure HandlerResult where
  status : ℕ
  message : String
  errorText : Option String
  event : Option String
  exit : ExitPoint
  upstreamCalls : ℕ
  cache : List CacheEntry
  usedToken : String
deriving DecidableEq, Repr

/-- Embedding of `router.post('/api/v1/message/text')`
(src/unnamed/part_009, lines 223–315). -/
def postMessageText (cache : List CacheEntry)
    (bodyChatGuid bodyTempGuid bodyMessage bodyText : Option String)
    (queryGuid : Option String) (bodyAttachmentPaths : List String)
    (now : ℤ) (rand : String)
    (upstream : Except String String) (postThrow : Bool) : HandlerResult :=
  let tempGuidOrFallback := tempGuidOrFallbackOf bodyTempGuid now rand
  let chatGuid : Option String := bodyChatGuid.orElse (fun _ => queryGuid)
  let textStr := jsTrim (bodyMessage.getD (bodyText.getD ""))
  let rawPaths := bodyAttachmentPaths.filter (fun p => p ≠ "")
  let paths := resolveAttachmentPaths rawPaths
  if optTruthy chatGuid = false ∨ (textStr = "" ∧ paths.length = 0) then
    { status := 400, message := "Bad Request",
      errorText :=
        some "chatGuid and (non-empty text or attachmentPaths) are required",
      event := none, exit := .validationError, upstreamCalls := 0,
      cache := cache, usedToken := tempGuidOrFallback }
  else if optTruthy (sendCacheFind cache tempGuidOrFallback) then
    { status := 400, message := "Bad Request",
      errorText := some ("Message is already queued to be sent (Temp GUID: "
        ++ tempGuidOrFallback ++ ")!"),
      event := none, exit := .duplicateQueued, upstreamCalls := 0,
      cache := cache, usedToken := tempGuidOrFallback }
  else
    let cache1 := (sendCacheAdd cache now tempGuidOrFallback).2
    match upstream with
    | .ok _ =>
      let cache2 := sendCacheRemove cache1 tempGuidOrFallback
      if postThrow then
        { status := 500, message := "The server has encountered an error",
          errorText := some "thrown while replying", event := none,
          exit := .handlerCrashed, upstreamCalls := 1,
          cache := sendCacheRemove cache2 tempGuidOrFallback,
          usedToken := tempGuidOrFallback }
      else
        { status := 200, message := "Message sent!", errorText := none,
          event := none, exit := .sendOk, upstreamCalls := 1,
          cache := cache2, usedToken := tempGuidOrFallback }
    | .error e =>
      let cache2 := sendCacheRemove cache1 tempGuidOrFallback
      if postThrow then
        { status := 500, message := "The server has encountered an error",
          errorText := some "thrown while replying", event := none,
          exit := .handlerCrashed, upstreamCalls := 1,
          cache := sendCacheRemove cache2 tempGuidOrFallback,
          usedToken := tempGuidOrFallback }
      else
        { status := 500, message := "Message Send Error",
          errorText :=
            some "Failed to send message! See attached message error code.",
          event := none, exit := .sendFailed, upstreamCalls := 1,
          cache := cache2, usedToken := tempGuidOrFallback }

/-- Embedding of `router.post('/api/v1/message/attachment')`
(src/unnamed/part_009, lines 388–475).  `uploadOk` is the multer upload
callback result, `filePresent` whether `req.file.path` exists; the
route's `tempGuid` uses `??`, so a client-supplied empty string is kept
as-is. -/
def postMessageAttachment (cache : List CacheEntry)
    (bodyChatGuid queryGuid bodyTempGuid : Option String)
    (uploadOk filePresent : Bool) (now : ℤ) (rand : String)
    (upstream : Except String String) : HandlerResult :=
  let chatGuid : Option String := bodyChatGuid.orElse (fun _ => queryGuid)
  let tempGuid := bodyTempGuid.getD (fallbackToken now rand)
  if uploadOk = false then
    { status := 400, message := "You've made a bad request! Please check your request params & body",
      errorText := some "Attachment upload failed", event := none,
      exit := .validationError, upstreamCalls := 0, cache := cache,
      usedToken := tempGuid }
  else if optTruthy chatGuid = false then
    { status := 400, message := "You've made a bad request! Please check your request params & body",
      errorText := some "chatGuid is required", event := none,
      exit := .validationError, upstreamCalls := 0, cache := cache,
      usedToken := tempGuid }
  else if filePresent = false then
    { status := 400, message := "You've made a bad request! Please check your request params & body",
      errorText := some "Attachment not provided or was empty!", event := none,
      exit := .validationError, upstreamCalls := 0, cache := cache,
      usedToken := tempGuid }
  else if optTruthy (sendCacheFind cache tempGuid) then
    { status := 400, message := "You've made a bad request! Please check your request params & body",
      errorText := some "Attachment is already queued to be sent!",
      event := none, exit := .duplicateQueued, upstreamCalls := 0,
      cache := cache, usedToken := tempGuid }
  else
    let cache1 := (sendCacheAdd cache now tempGuid).2
    match upstream with
    | .ok _ =>
      { status := 200, message := "Attachment sent!", errorText := none,
        event := none, exit := .sendOk, upstreamCalls := 1,
        cache := sendCacheRemove cache1 tempGuid, usedToken := tempGuid }
    | .error e =>
      { status := 500, message := "Attachment Send Error",
        errorText :=
          some "Failed to send attachment! See attached message error code.",
        event := none, exit := .sendFailed, upstreamCalls := 1,
        cache := sendCacheRemove cache1 tempGuid, usedToken := tempGuid }

/-- Embedding of `socket.on('send-message')`
(src/events/socket-events.js, lines 964–1067).  `attachment`,
`attachmentName`, `attachmentGuid` are the truthiness of the inline
attachment parameters; `saveInline` is the result of decoding and
writing the inline attachment to disk. -/
def socketSendMessage (cache : List CacheEntry)
    (guid tempGuid message : Option String)
    (attachment attachmentName attachmentGuid : Bool)
    (attachmentPaths : List String)
    (saveInline : Except String String) (now : ℤ)
    (upstream : Except String String) : HandlerResult :=
  let hasInlineAttachment := attachment && attachmentName && attachmentGuid
  let paths0 := attachmentPaths.filter (fun p => p ≠ "")
  let tok := tempGuid.getD ""
  if optTruthy guid = false then
    { status := 400, message := "Bad Request",
      errorText := some "No chat GUID provided", event := some "error",
      exit := .validationError, upstreamCalls := 0, cache := cache,
      usedToken := tok }
  else if optTruthy tempGuid = false then
    { status := 400, message := "Bad Request",
      errorText := some "No temporary GUID provided with message",
      event := some "error", exit := .validationError, upstreamCalls := 0,
      cache := cache, usedToken := tok }
  else if attachment && !hasInlineAttachment then
    { status := 500, message := "Server Error",
      errorText := some "No attachment name or GUID provided",
      event := some "message-send-error", exit := .validationError,
      upstreamCalls := 0, cache := cache, usedToken := tok }
  else if jsTrim (message.getD "") = "" ∧ paths0.length = 0
      ∧ hasInlineAttachment = false then
    { status := 400, message := "Bad Request",
      errorText := some "Message text or attachmentPaths required",
      event := some "error", exit := .validationError, upstreamCalls := 0,
      cache := cache, usedToken := tok }
  else if optTruthy (sendCacheFind cache tok) then
    { status := 400, message := "Bad Request",
      errorText := some ("Message is already queued to be sent (Temp GUID: "
        ++ tok ++ ")!"),
      event := some "error", exit := .duplicateQueued, upstreamCalls := 0,
      cache := cache, usedToken := tok }
  else
    match (if hasInlineAttachment then saveInline.map (fun p => [p])
      else .ok (resolveAttachmentPaths paths0)) with
    | .error _ =>
      { status := 500, message := "Server Error",
        errorText := some "Failed to save attachment", event := some "error",
        exit := .saveFailed, upstreamCalls := 0, cache := cache,
        usedToken := tok }
    | .ok _ =>
      let cache1 := (sendCacheAdd cache now tok).2
      match upstream with
      | .ok _ =>
        { status := 200, message := "Success", errorText := none,
          event := some "message-sent", exit := .sendOk, upstreamCalls := 1,
          cache := sendCacheRemove cache1 tok, usedToken := tok }
      | .error e =>
        { status := 500,
          message := "Failed to send message! See attached message error code.",
          errorText := some e, event := some "message-send-error",
          exit := .sendFailed, upstreamCalls := 1,
          cache := sendCacheRemove cache1 tok, usedToken := tok }

/-- Embedding of `socket.on('send-message-chunk')`
(src/events/socket-events.js, lines 1068–1158).  `saveChunkOk` is the
chunk-write result, `build` the result of assembling the chunks into a
file. -/
def socketSendMessageChunk (cache : List CacheEntry)
    (guid tempGuid message attachmentGuid : Option String)
    (attachmentDataPresent saveChunkOk hasMore : Bool)
    (attachmentName : Option String)
    (build : Except String String) (now : ℤ)
    (upstream : Except String String) : HandlerResult :=
  let tok := tempGuid.getD ""
  if optTruthy guid = false then
    { status := 400, message := "Bad Request",
      errorText := some "No chat GUID provided", event := some "error",
      exit := .validationError, upstreamCalls := 0, cache := cache,
      usedToken := tok }
  else if optTruthy tempGuid = false then
    { status := 400, message := "Bad Request",
      errorText := some "No temporary GUID provided", event := some "error",
      exit := .validationError, upstreamCalls := 0, cache := cache,
      usedToken := tok }
  else if optTruthy (sendCacheFind cache tok) then
    { status := 400, message := "Bad Request",
      errorText := some "Attachment is already queued to be sent!",
      event := some "error", exit := .duplicateQueued, upstreamCalls := 0,
      cache := cache, usedToken := tok }
  else if optTruthy attachmentGuid && attachmentDataPresent && !saveChunkOk
    then
    { status := 500, message := "Server Error",
      errorText := some "Failed to save attachment chunk",
      event := some "error", exit := .saveFailed, upstreamCalls := 0,
      cache := cache, usedToken := tok }
  else if hasMore = false then
    if optTruthy attachmentGuid && !(optTruthy attachmentName) then
      { status := 400, message := "Bad Request",
        errorText := some "No attachment name provided",
        event := some "error", exit := .validationError, upstreamCalls := 0,
        cache := cache, usedToken := tok }
    else
      let cache1 := (sendCacheAdd cache now tok).2
      match (if optTruthy attachmentGuid && optTruthy attachmentName then
          build.map some
        else .ok none) with
      | .error _ =>
        { status := 500, message := "Server Error",
          errorText := some "Failed to build attachment from chunks",
          event := some "error", exit := .buildFailed, upstreamCalls := 0,
          cache := sendCacheRemove cache1 tok, usedToken := tok }
      | .ok _ =>
        match upstream with
        | .ok _ =>
          { status := 200, message := "Success", errorText := none,
            event := some "message-sent", exit := .sendOk,
            upstreamCalls := 1, cache := sendCacheRemove cache1 tok,
            usedToken := tok }
        | .error e =>
          { status := 500, message := "Server Error", errorText := some e,
            event := some "send-message-error", exit := .sendFailed,
            upstreamCalls := 1, cache := sendCacheRemove cache1 tok,
            usedToken := tok }
  else
    { status := 200, message := "Success", errorText := none,
      event := some "message-chunk-saved", exit := .sendOk,
      upstreamCalls := 0, cache := cache, usedToken := tok }

theorem sendCacheFind_empty (items : List CacheEntry) :
    sendCacheFind items "" = none := by
  unfold sendCacheFind
  rw [if_pos rfl]

theorem sendCacheFind_of_live (items : List CacheEntry) (t : String)
    (ht : t ≠ "") (h : cacheLive items t) :
    sendCacheFind items t = some t := by
  unfold sendCacheFind
  rw [if_neg ht]
  cases hf : items.find? (fun i => i.item = t) with
  | none =>
    exfalso
    rw [List.find?_eq_none] at hf
    obtain ⟨e, he, het⟩ := h
    exact hf e he (by simpa using het)
  | some e =>
    have he := List.find?_some hf
    simp only [decide_eq_true_eq] at he
    dsimp only
    rw [he]

theorem optTruthy_find_eq_false (items : List CacheEntry) (t : String)
    (h : optTruthy (sendCacheFind items t) = false) :
    t = "" ∨ ¬ cacheLive items t := by
  by_cases ht : t = ""
  · exact Or.inl ht
  · refine Or.inr fun hl => ?_
    rw [sendCacheFind_of_live items t ht hl] at h
    simp only [optTruthy, ne_eq, decide_eq_false_iff_not, not_not] at h
    exact ht h

theorem optTruthy_find_of_live (items : List CacheEntry) (t : String)
    (ht : t ≠ "") (h : cacheLive items t) :
    optTruthy (sendCacheFind items t) = true := by
  rw [sendCacheFind_of_live items t ht h]
  simpa [optTruthy] using ht

/-- `remove` is a no-op whenever the preceding `find` was falsy. -/
theorem remove_noop_of_find_false (items : List CacheEntry) (t : String)
    (h : optTruthy (sendCacheFind items t) = false) :
    sendCacheRemove items t = items := by
  rcases optTruthy_find_eq_false items t h with ht | hnl
  · subst ht
    unfold sendCacheRemove
    rw [if_pos rfl]
  · exact remove_of_not_live items t hnl

/-- After a dup-check that found nothing, `add` followed by `remove` of
the same token restores the cache exactly. -/
theorem addRemove_restore (cache : List CacheEntry) (now : ℤ) (tok : String)
    (h : optTruthy (sendCacheFind cache tok) = false) :
    sendCacheRemove (sendCacheAdd cache now tok).2 tok = cache := by
  rcases optTruthy_find_eq_false cache tok h with ht | hnl
  · subst ht
    unfold sendCacheAdd
    rw [if_pos rfl]
    unfold sendCacheRemove
    rw [if_pos rfl]
  · by_cases ht : tok = ""
    · subst ht
      unfold sendCacheAdd
      rw [if_pos rfl]
      unfold sendCacheRemove
      rw [if_pos rfl]
    · rw [add_of_not_live cache now tok ht hnl]
      exact remove_append_of_not_live cache now tok ht hnl

/-- Double removal (outer `catch` after the inner cleanup) also restores
the cache exactly. -/
theorem addRemoveRemove_restore (cache : List CacheEntry) (now : ℤ)
    (tok : String) (h : optTruthy (sendCacheFind cache tok) = false) :
    sendCacheRemove (sendCacheRemove (sendCacheAdd cache now tok).2 tok) tok
      = cache := by
  rw [addRemove_restore cache now tok h]
  exact remove_noop_of_find_false cache tok h

/-- C6 — confirmed.  On every send path (REST text send, REST attachment
send, realtime send-message, realtime send-message-chunk) and on every
resolution (success, upstream failure, build/save failure after
insertion, and a handler error caught by the outer catch), the final
cache state equals the initial one: an idempotency token added by a
request is removed again before the request resolves, on every path. -/
theorem C6_send_token_always_released :
    (∀ (cache : List CacheEntry)
        (bodyChatGuid bodyTempGuid bodyMessage bodyText queryGuid :
          Option String)
        (bodyAttachmentPaths : List String) (now : ℤ) (rand : String)
        (upstream : Except String String) (postThrow : Bool),
      (postMessageText cache bodyChatGuid bodyTempGuid bodyMessage bodyText
        queryGuid bodyAttachmentPaths now rand upstream postThrow).cache
        = cache)
    ∧ (∀ (cache : List CacheEntry)
        (bodyChatGuid queryGuid bodyTempGuid : Option String)
        (uploadOk filePresent : Bool) (now : ℤ) (rand : String)
        (upstream : Except String String),
      (postMessageAttachment cache bodyChatGuid queryGuid bodyTempGuid
        uploadOk filePresent now rand upstream).cache = cache)
    ∧ (∀ (cache : List CacheEntry) (guid tempGuid message : Option String)
        (attachment attachmentName attachmentGuid : Bool)
        (attachmentPaths : List String) (saveInline : Except String String)
        (now : ℤ) (upstream : Except String String),
      (socketSendMessage cache guid tempGuid message attachment
        attachmentName attachmentGuid attachmentPaths saveInline now
        upstream).cache = cache)
    ∧ (∀ (cache : List CacheEntry)
        (guid tempGuid message attachmentGuid : Option String)
        (attachmentDataPresent saveChunkOk hasMore : Bool)
        (attachmentName : Option String) (build : Except String String)
        (now : ℤ) (upstream : Except String String),
      (socketSendMessageChunk cache guid tempGuid message attachmentGuid
        attachmentDataPresent saveChunkOk hasMore attachmentName build now
        upstream).cache = cache) := by
  refine ⟨?_, ?_, ?_, ?_⟩
  · intro cache bodyChatGuid bodyTempGuid bodyMessage bodyText queryGuid
      bodyAttachmentPaths now rand upstream postThrow
    unfold postMessageText
    dsimp only
    split
    · rfl
    · split
      · rfl
      · next h2 =>
          have h2' : optTruthy (sendCacheFind cache
              (tempGuidOrFallbackOf bodyTempGuid now rand)) = false := by
            simpa using h2
          cases upstream with
          | ok r =>
            dsimp only
            split
            · exact addRemoveRemove_restore cache now _ h2'
            · exact addRemove_restore cache now _ h2'
          | error e =>
            dsimp only
            split
            · exact addRemoveRemove_restore cache now _ h2'
            · exact addRemove_restore cache now _ h2'
  · intro cache bodyChatGuid queryGuid bodyTempGuid uploadOk filePresent
      now rand upstream
    unfold postMessageAttachment
    dsimp only
    split
    · rfl
    · split
      · rfl
      · split
        · rfl
        · split
          · rfl
          · next h4 =>
              have h4' : optTruthy (sendCacheFind cache
                  (bodyTempGuid.getD (fallbackToken now rand))) = false := by
                simpa using h4
              cases upstream with
              | ok r => exact addRemove_restore cache now _ h4'
              | error e => exact addRemove_restore cache now _ h4'
  · intro cache guid tempGuid message attachment attachmentName
      attachmentGuid attachmentPaths saveInline now upstream
    unfold socketSendMessage
    dsimp only
    split
    · rfl
    · split
      · rfl
      · split
        · rfl
        · split
          · rfl
          · split
            · rfl
            · next h5 =>
                have h5' : optTruthy (sendCacheFind cache
                    (tempGuid.getD "")) = false := by
                  simpa using h5
                split
                · rfl
                · cases upstream with
                  | ok r => exact addRemove_restore cache now _ h5'
                  | error e => exact addRemove_restore cache now _ h5'
  · intro cache guid tempGuid message attachmentGuid attachmentDataPresent
      saveChunkOk hasMore attachmentName build now upstream
    unfold socketSendMessageChunk
    dsimp only
    split
    · rfl
    · split
      · rfl
      · split
        · rfl
        · next h3 =>
            have h3' : optTruthy (sendCacheFind cache
                (tempGuid.getD "")) = false := by
              simpa using h3
            split
            · rfl
            · split
              · split
                · rfl
                · split
                  · exact addRemove_restore cache now _ h3'
                  · cases upstream with
                    | ok r => exact addRemove_restore cache now _ h3'
                    | error e => exact addRemove_restore cache now _ h3'
              · rfl

/-- C5 — counterexample.  With the token `"abc123"` live in the send
cache, a REST text send carrying the same token is rejected — but with
HTTP status 400 and the envelope label `"Bad Request"` (the bad-request
class of the taxonomy), not a conflict-class (409) error.  The
"no second upstream call" part holds (`upstreamCalls = 0`). -/
theorem C5_counterexample :
    (postMessageText [⟨0, "abc123"⟩] (some "c") (some "abc123")
      (some "hello") none none [] 7 "r" (Except.ok "g") false).exit
      = ExitPoint.duplicateQueued
    ∧ (postMessageText [⟨0, "abc123"⟩] (some "c") (some "abc123")
      (some "hello") none none [] 7 "r" (Except.ok "g") false).status = 400
    ∧ (postMessageText [⟨0, "abc123"⟩] (some "c") (some "abc123")
      (some "hello") none none [] 7 "r" (Except.ok "g") false).message
      = "Bad Request"
    ∧ (postMessageText [⟨0, "abc123"⟩] (some "c") (some "abc123")
      (some "hello") none none [] 7 "r" (Except.ok "g") false).status ≠ 409
    ∧ (postMessageText [⟨0, "abc123"⟩] (some "c") (some "abc123")
      (some "hello") none none [] 7 "r" (Except.ok "g") false).upstreamCalls
      = 0 := by
  refine ⟨?_, rfl, rfl, by decide, rfl⟩
  rfl

/-- C5 (amended).  If a send request (REST POST /api/v1/message/text or
the realtime send-message event) arrives carrying an idempotency token
`T` while `T` is live in the send cache, and the request otherwise
passes validation, then it is rejected — with an HTTP 400 "Bad Request"
validation-class error (message `Message is already queued to be sent
(Temp GUID: T)!`), not a 409 conflict-class error — and no upstream
daemon send call is made for it (and the cache is left unchanged). -/
theorem C5_duplicate_rejected_amended (cache : List CacheEntry)
    (T : String) (hT : T ≠ "") (hlive : cacheLive cache T) :
    (∀ (bodyChatGuid bodyMessage bodyText queryGuid : Option String)
        (paths : List String) (now : ℤ) (rand : String)
        (upstream : Except String String) (postThrow : Bool),
      optTruthy (bodyChatGuid.orElse (fun _ => queryGuid)) = true →
      jsTrim (bodyMessage.getD (bodyText.getD "")) ≠ "" →
      (postMessageText cache bodyChatGuid (some T) bodyMessage bodyText
          queryGuid paths now rand upstream postThrow).exit
        = ExitPoint.duplicateQueued
      ∧ (postMessageText cache bodyChatGuid (some T) bodyMessage bodyText
          queryGuid paths now rand upstream postThrow).status = 400
      ∧ (postMessageText cache bodyChatGuid (some T) bodyMessage bodyText
          queryGuid paths now rand upstream postThrow).message
        = "Bad Request"
      ∧ (postMessageText cache bodyChatGuid (some T) bodyMessage bodyText
          queryGuid paths now rand upstream postThrow).errorText
        = some ("Message is already queued to be sent (Temp GUID: "
            ++ T ++ ")!")
      ∧ (postMessageText cache bodyChatGuid (some T) bodyMessage bodyText
          queryGuid paths now rand upstream postThrow).upstreamCalls = 0
      ∧ (postMessageText cache bodyChatGuid (some T) bodyMessage bodyText
          queryGuid paths now rand upstream postThrow).cache = cache)
    ∧ (∀ (guid message : Option String) (attachmentPaths : List String)
        (saveInline : Except String String) (now : ℤ)
        (upstream : Except String String),
      optTruthy guid = true →
      jsTrim (message.getD "") ≠ "" →
      (socketSendMessage cache guid (some T) message false false false
          attachmentPaths saveInline now upstream).exit
        = ExitPoint.duplicateQueued
      ∧ (socketSendMessage cache guid (some T) message false false false
          attachmentPaths saveInline now upstream).status = 400
      ∧ (socketSendMessage cache guid (some T) message false false false
          attachmentPaths saveInline now upstream).message = "Bad Request"
      ∧ (socketSendMessage cache guid (some T) message false false false
          attachmentPaths saveInline now upstream).event = some "error"
      ∧ (socketSendMessage cache guid (some T) message false false false
          attachmentPaths saveInline now upstream).upstreamCalls = 0
      ∧ (socketSendMessage cache guid (some T) message false false false
          attachmentPaths saveInline now upstream).cache = cache) := by
  have hfind := optTruthy_find_of_live cache T hT hlive
  constructor
  · intro bodyChatGuid bodyMessage bodyText queryGuid paths now rand
      upstream postThrow hchat htext
    have htok : tempGuidOrFallbackOf (some T) now rand = T := by
      unfold tempGuidOrFallbackOf
      dsimp only
      rw [if_neg hT]
    unfold postMessageText
    dsimp only
    rw [htok]
    rw [if_neg (by
      rintro (hc | ⟨hc, -⟩)
      · rw [hchat] at hc; exact Bool.true_eq_false.mp hc
      · exact htext hc)]
    rw [if_pos hfind]
    exact ⟨rfl, rfl, rfl, rfl, rfl, rfl⟩
  · intro guid message attachmentPaths saveInline now upstream hguid htext
    have htok : (some T).getD "" = T := rfl
    unfold socketSendMessage
    dsimp only
    rw [htok]
    rw [if_neg (by rw [hguid]; exact fun hc => Bool.true_eq_false.mp hc)]
    rw [if_neg (by
      show ¬ (optTruthy (some T) = false)
      simp [optTruthy, hT])]
    rw [if_neg (by simp : ¬ ((false && !(false && false && false)) = true))]
    rw [if_neg (by rintro ⟨hc, -⟩; exact htext hc)]
    rw [if_pos hfind]
    exact ⟨rfl, rfl, rfl, rfl, rfl, rfl⟩

/-- Witness for the amended C5: with `"abc123"` live in the cache, a
valid REST request and a valid realtime request carrying `"abc123"` are
both rejected as duplicates with 400 "Bad Request" and make no upstream
call. -/
theorem C5_duplicate_rejected_amended_witness :
    ((postMessageText [⟨0, "abc123"⟩] (some "c") (some "abc123")
        (some "hello") none none [] 7 "r" (Except.ok "g") false).exit
      = ExitPoint.duplicateQueued
      ∧ (postMessageText [⟨0, "abc123"⟩] (some "c") (some "abc123")
        (some "hello") none none [] 7 "r" (Except.ok "g") false).status = 400
      ∧ (postMessageText [⟨0, "abc123"⟩] (some "c") (some "abc123")
        (some "hello") none none [] 7 "r" (Except.ok "g") false).message
        = "Bad Request"
      ∧ (postMessageText [⟨0, "abc123"⟩] (some "c") (some "abc123")
        (some "hello") none none [] 7 "r" (Except.ok "g") false).errorText
        = some ("Message is already queued to be sent (Temp GUID: "
            ++ "abc123" ++ ")!")
      ∧ (postMessageText [⟨0, "abc123"⟩] (some "c") (some "abc123")
        (some "hello") none none [] 7 "r" (Except.ok "g") false).upstreamCalls
        = 0
      ∧ (postMessageText [⟨0, "abc123"⟩] (some "c") (some "abc123")
        (some "hello") none none [] 7 "r" (Except.ok "g") false).cache
        = [⟨0, "abc123"⟩])
    ∧ ((socketSendMessage [⟨0, "abc123"⟩] (some "c") (some "abc123")
        (some "hi") false false false [] (Except.ok "p") 7
        (Except.ok "g")).exit = ExitPoint.duplicateQueued
      ∧ (socketSendMessage [⟨0, "abc123"⟩] (some "c") (some "abc123")
        (some "hi") false false false [] (Except.ok "p") 7
        (Except.ok "g")).status = 400
      ∧ (socketSendMessage [⟨0, "abc123"⟩] (some "c") (some "abc123")
        (some "hi") false false false [] (Except.ok "p") 7
        (Except.ok "g")).message = "Bad Request"
      ∧ (socketSendMessage [⟨0, "abc123"⟩] (some "c") (some "abc123")
        (some "hi") false false false [] (Except.ok "p") 7
        (Except.ok "g")).event = some "error"
      ∧ (socketSendMessage [⟨0, "abc123"⟩] (some "c") (some "abc123")
        (some "hi") false false false [] (Except.ok "p") 7
        (Except.ok "g")).upstreamCalls = 0
      ∧ (socketSendMessage [⟨0, "abc123"⟩] (some "c") (some "abc123")
        (some "hi") false false false [] (Except.ok "p") 7
        (Except.ok "g")).cache = [⟨0, "abc123"⟩]) :=
  ⟨(C5_duplicate_rejected_amended [⟨0, "abc123"⟩] "abc123" (by decide)
      ⟨⟨0, "abc123"⟩, List.mem_singleton.mpr rfl, rfl⟩).1
      (some "c") (some "hello") none none [] 7 "r" (Except.ok "g") false
      (by decide) (by decide),
    (C5_duplicate_rejected_amended [⟨0, "abc123"⟩] "abc123" (by decide)
      ⟨⟨0, "abc123"⟩, List.mem_singleton.mpr rfl, rfl⟩).2
      (some "c") (some "hi") [] (Except.ok "p") 7 (Except.ok "g")
      (by decide) (by decide)⟩

/-- The fallback token is never the empty string. -/
theorem fallbackToken_ne_empty (now : ℤ) (rand : String) :
    fallbackToken now rand ≠ "" := by
  unfold fallbackToken
  intro h
  have hlen := congrArg String.length h
  simp only [String.length_append] at hlen
  have h5 : ("temp-" : String).length = 5 := rfl
  have h0 : ("" : String).length = 0 := rfl
  omega

/-- Every exit of the REST text route reports the token it consulted:
the body token, or the generated `temp-<timestamp>-<random>` fallback. -/
theorem postMessageText_usedToken (cache : List CacheEntry)
    (bodyChatGuid bodyTempGuid bodyMessage bodyText queryGuid :
      Option String)
    (bodyAttachmentPaths : List String) (now : ℤ) (rand : String)
    (upstream : Except String String) (postThrow : Bool) :
    (postMessageText cache bodyChatGuid bodyTempGuid bodyMessage bodyText
      queryGuid bodyAttachmentPaths now rand upstream postThrow).usedToken
      = tempGuidOrFallbackOf bodyTempGuid now rand := by
  unfold postMessageText
  dsimp only
  split
  · rfl
  · split
    · rfl
    · cases upstream with
      | ok r =>
        dsimp only
        split <;> rfl
      | error e =>
        dsimp only
        split <;> rfl

/-- Every exit of the REST attachment route reports the token it
consulted. -/
theorem postMessageAttachment_usedToken (cache : List CacheEntry)
    (bodyChatGuid queryGuid bodyTempGuid : Option String)
    (uploadOk filePresent : Bool) (now : ℤ) (rand : String)
    (upstream : Except String String) :
    (postMessageAttachment cache bodyChatGuid queryGuid bodyTempGuid
      uploadOk filePresent now rand upstream).usedToken
      = bodyTempGuid.getD (fallbackToken now rand) := by
  unfold postMessageAttachment
  dsimp only
  split
  · rfl
  · split
    · rfl
    · split
      · rfl
      · split
        · rfl
        · cases upstream with
          | ok r => rfl
          | error e => rfl

/-- `find` returns `null` whenever the token is not live. -/
theorem sendCacheFind_of_not_live (items : List CacheEntry) (t : String)
    (h : ¬ cacheLive items t) :
    sendCacheFind items t = none := by
  unfold sendCacheFind
  by_cases ht : t = ""
  · rw [if_pos ht]
  · rw [if_neg ht, find?_eq_none_of_not_live items t h]

/-- C10 — confirmed.  For every REST send request (text or attachment)
whose body omits `tempGuid`, the handler's consulted token is the
generated fallback `temp-<timestamp>-<random>`; and as long as that
fallback is not live in the cache (it is freshly generated per request),
the request is never rejected as a duplicate — the duplicate exit can
only trigger for a token that is live, i.e. one the client itself
supplied on an earlier still-in-flight request. -/
theorem C10_fallback_token (cache : List CacheEntry) (now : ℤ)
    (rand : String) :
    (∀ (bodyChatGuid bodyMessage bodyText queryGuid : Option String)
        (paths : List String) (upstream : Except String String)
        (postThrow : Bool),
      (postMessageText cache bodyChatGuid none bodyMessage bodyText
          queryGuid paths now rand upstream postThrow).usedToken
        = "temp-" ++ toString now ++ "-" ++ rand
      ∧ (¬ cacheLive cache (fallbackToken now rand) →
        (postMessageText cache bodyChatGuid none bodyMessage bodyText
          queryGuid paths now rand upstream postThrow).exit
          ≠ ExitPoint.duplicateQueued))
    ∧ (∀ (bodyChatGuid queryGuid : Option String)
        (uploadOk filePresent : Bool) (upstream : Except String String),
      (postMessageAttachment cache bodyChatGuid queryGuid none uploadOk
          filePresent now rand upstream).usedToken
        = "temp-" ++ toString now ++ "-" ++ rand
      ∧ (¬ cacheLive cache (fallbackToken now rand) →
        (postMessageAttachment cache bodyChatGuid queryGuid none uploadOk
          filePresent now rand upstream).exit
          ≠ ExitPoint.duplicateQueued)) := by
  constructor
  · intro bodyChatGuid bodyMessage bodyText queryGuid paths upstream
      postThrow
    constructor
    · rw [postMessageText_usedToken]
      rfl
    · intro hfresh
      have hfind : optTruthy (sendCacheFind cache (fallbackToken now rand))
          = false := by
        rw [sendCacheFind_of_not_live cache _ hfresh]
        rfl
      unfold postMessageText
      dsimp only
      split
      · exact fun hc => by exact absurd hc (by simp)
      · split
        · next hdup =>
            exfalso
            have : tempGuidOrFallbackOf none now rand
                = fallbackToken now rand := rfl
            rw [this, hfind] at hdup
            exact Bool.false_ne_true hdup
        · cases upstream with
          | ok r =>
            dsimp only
            split <;> exact fun hc => by exact absurd hc (by simp)
          | error e =>
            dsimp only
            split <;> exact fun hc => by exact absurd hc (by simp)
  · intro bodyChatGuid queryGuid uploadOk filePresent upstream
    constructor
    · rw [postMessageAttachment_usedToken]
      rfl
    · intro hfresh
      have hfind : optTruthy (sendCacheFind cache (fallbackToken now rand))
          = false := by
        rw [sendCacheFind_of_not_live cache _ hfresh]
        rfl
      unfold postMessageAttachment
      dsimp only
      split
      · exact fun hc => by exact absurd hc (by simp)
      · split
        · exact fun hc => by exact absurd hc (by simp)
        · split
          · exact fun hc => by exact absurd hc (by simp)
          · split
            · next hdup =>
                exfalso
                have : (none : Option String).getD (fallbackToken now rand)
                    = fallbackToken now rand := rfl
                rw [this, hfind] at hdup
                exact Bool.false_ne_true hdup
            · cases upstream with
              | ok r => exact fun hc => by exact absurd hc (by simp)
              | error e => exact fun hc => by exact absurd hc (by simp)

/-- Witness for C10 at a concrete token-less request against the empty
cache. -/
theorem C10_fallback_token_witness :
    ((postMessageText [] (some "c") none (some "hello") none none [] 7 "r"
        (Except.ok "g") false).usedToken
      = "temp-" ++ toString (7 : ℤ) ++ "-" ++ "r"
    ∧ (postMessageText [] (some "c") none (some "hello") none none [] 7 "r"
        (Except.ok "g") false).exit ≠ ExitPoint.duplicateQueued)
    ∧ ((postMessageAttachment [] (some "c") none none true true 7 "r"
        (Except.ok "g")).usedToken
      = "temp-" ++ toString (7 : ℤ) ++ "-" ++ "r"
    ∧ (postMessageAttachment [] (some "c") none none true true 7 "r"
        (Except.ok "g")).exit ≠ ExitPoint.duplicateQueued) := by
  have h := C10_fallback_token [] 7 "r"
  have hfresh : ¬ cacheLive [] (fallbackToken 7 "r") := by
    rintro ⟨e, he, -⟩
    simp at he
  refine ⟨⟨(h.1 (some "c") (some "hello") none none [] (Except.ok "g")
      false).1, (h.1 (some "c") (some "hello") none none [] (Except.ok "g")
      false).2 hfresh⟩,
    ⟨(h.2 (some "c") none true true (Except.ok "g")).1,
      (h.2 (some "c") none true true (Except.ok "g")).2 hfresh⟩⟩

/-! ## Broadcast dedup and the two delivery paths (src/server.js)

```js
const recentlyEmittedGuids = new Set();
const MAX_EMITTED_CACHE = 1000;
function shouldEmitMessage(guid) {
  if (!guid) return true;
  if (recentlyEmittedGuids.has(guid)) return false;
  recentlyEmittedGuids.add(guid);
  if (recentlyEmittedGuids.size > MAX_EMITTED_CACHE) {
    recentlyEmittedGuids.clear();
  }
  return true;
}
```

The `Set` is embedded as a list of strings in insertion order; both the
SSE push path (`subscribeToDaemonEvents.onNewMessage`) and the poll
fallback (`pollSwiftDaemon`'s message loop) thread it explicitly.
Broadcasts are recorded as `(room, event)` pairs. -/

def MAX_EMITTED_CACHE : ℕ := 1000

/-- `shouldEmitMessage(guid)`: returns the decision and the updated
`recentlyEmittedGuids` set. -/
def shouldEmitMessage (s : List String) (guid : Option String) :
    Bool × List String :=
  match guid with
  | none => (true, s)
  | some g =>
    if g = "" then (true, s)
    else if s.contains g then (false, s)
    else
      let s' := s ++ [g]
      if s'.length > MAX_EMITTED_CACHE then (true, [])
      else (true, s')

/-- `x || null` on a nullable string. -/
def jsOrNull : Option String → Option String
  | some x => if x = "" then none else some x
  | none => none

/-- The SSE push path `onNewMessage` (src/server.js lines 235–244):
guard on `chatGuid`, consult `shouldEmitMessage`, then broadcast
`message.created` and `new-message` to the chat room. -/
def sseOnNewMessage (s : List String) (chatGuid guid : Option String) :
    List (String × String) × List String :=
  let chat := jsOrNull chatGuid
  match chat with
  | none => ([], s)
  | some c =>
    let g := jsOrNull guid
    match shouldEmitMessage s g with
    | (false, s') => ([], s')
    | (true, s') =>
      ([(c, "message.created"), (c, "new-message")], s')

/-- One upstream message as seen by the poll loop. -/
structure PollMsg where
  chatGuid : Option String
  guid : Option String

/-- The poll fallback's message loop (src/server.js lines 319–333):
for each message, guard on `chatGuid`, consult `shouldEmitMessage`
(`continue` when it returns false), then broadcast `message.created`
and `new-message` to the chat room. -/
def pollEmitMessages (s : List String) :
    List PollMsg → List (String × String) × List String
  | [] => ([], s)
  | m :: rest =>
    match m.chatGuid with
    | none => pollEmitMessages s rest
    | some c =>
      if c = "" then pollEmitMessages s rest
      else
        let g := jsOrNull m.guid
        match shouldEmitMessage s g with
        | (false, s') => pollEmitMessages s' rest
        | (true, s') =>
          let r := pollEmitMessages s' rest
          ((c, "message.created") :: (c, "new-message") :: r.1, r.2)

/-- Number of `message.created` broadcasts in a broadcast list. -/
def countCreated (bs : List (String × String)) : ℕ :=
  (bs.filter (fun b => b.2 = "message.created")).length

theorem shouldEmitMessage_fresh (s : List String) (g : String)
    (hg : g ≠ "") (habs : s.contains g = false)
    (hlen : s.length < MAX_EMITTED_CACHE) :
    shouldEmitMessage s (some g) = (true, s ++ [g]) := by
  unfold shouldEmitMessage
  dsimp only
  rw [if_neg hg,
    if_neg (by rw [habs]; exact Bool.false_ne_true :
      ¬ (s.contains g = true)),
    if_neg (by simp only [List.length_append, List.length_singleton]; omega)]

theorem shouldEmitMessage_dup (s : List String) (g : String)
    (hg : g ≠ "") (hmem : s.contains g = true) :
    shouldEmitMessage s (some g) = (false, s) := by
  unfold shouldEmitMessage
  dsimp only
  rw [if_neg hg, if_pos hmem]

/-- C9 — confirmed.  When the same upstream message guid is delivered
by both the push (SSE) path and the poll fallback within the dedup
window (the guid not yet emitted, the emitted-set below its
1000-entry clearing bound), exactly one `message.created` broadcast
reaches the room: the first path to process the guid broadcasts once
and records it, and the second path — in either order — consults the
same `shouldEmitMessage` set, finds the guid recorded, and broadcasts
nothing. -/
theorem C9_push_poll_dedup (s : List String) (g chat chat' : String)
    (hg : g ≠ "") (hchat : chat ≠ "") (hchat' : chat' ≠ "")
    (habs : s.contains g = false) (hlen : s.length < MAX_EMITTED_CACHE) :
    (countCreated (sseOnNewMessage s (some chat) (some g)).1 = 1
      ∧ countCreated (pollEmitMessages
          (sseOnNewMessage s (some chat) (some g)).2
          [⟨some chat', some g⟩]).1 = 0)
    ∧ (countCreated (pollEmitMessages s [⟨some chat', some g⟩]).1 = 1
      ∧ countCreated (sseOnNewMessage
          (pollEmitMessages s [⟨some chat', some g⟩]).2
          (some chat) (some g)).1 = 0) := by
  have hcontains : (s ++ [g]).contains g = true := by
    have hmem : g ∈ s ++ [g] :=
      List.mem_append_right s (List.mem_singleton.mpr rfl)
    exact List.elem_eq_true_of_mem hmem
  have hsse : sseOnNewMessage s (some chat) (some g)
      = ([(chat, "message.created"), (chat, "new-message")], s ++ [g]) := by
    unfold sseOnNewMessage
    dsimp only
    rw [show jsOrNull (some chat) = some chat by simp [jsOrNull, hchat]]
    dsimp only
    rw [show jsOrNull (some g) = some g by simp [jsOrNull, hg]]
    rw [shouldEmitMessage_fresh s g hg habs hlen]
  have hpoll1 : pollEmitMessages s [⟨some chat', some g⟩]
      = ([(chat', "message.created"), (chat', "new-message")], s ++ [g])
      := by
    unfold pollEmitMessages
    dsimp only
    rw [if_neg hchat']
    rw [show jsOrNull (some g) = some g by simp [jsOrNull, hg]]
    rw [shouldEmitMessage_fresh s g hg habs hlen]
    rfl
  have hpoll2 : pollEmitMessages (s ++ [g]) [⟨some chat', some g⟩]
      = ([], s ++ [g]) := by
    unfold pollEmitMessages
    dsimp only
    rw [if_neg hchat']
    rw [show jsOrNull (some g) = some g by simp [jsOrNull, hg]]
    rw [shouldEmitMessage_dup (s ++ [g]) g hg hcontains]
    rfl
  have hsse2 : sseOnNewMessage (s ++ [g]) (some chat) (some g)
      = ([], s ++ [g]) := by
    unfold sseOnNewMessage
    dsimp only
    rw [show jsOrNull (some chat) = some chat by simp [jsOrNull, hchat]]
    dsimp only
    rw [show jsOrNull (some g) = some g by simp [jsOrNull, hg]]
    rw [shouldEmitMessage_dup (s ++ [g]) g hg hcontains]
  refine ⟨⟨?_, ?_⟩, ⟨?_, ?_⟩⟩
  · rw [hsse]
    simp [countCreated]
  · rw [hsse, hpoll2]
    rfl
  · rw [hpoll1]
    simp [countCreated]
  · rw [hpoll1, hsse2]
    rfl

/-- Witness for C9 at a concrete guid, starting from the empty
emitted-set. -/
theorem C9_push_poll_dedup_witness :
    (countCreated (sseOnNewMessage [] (some "chat1") (some "guid1")).1 = 1
      ∧ countCreated (pollEmitMessages
          (sseOnNewMessage [] (some "chat1") (some "guid1")).2
          [⟨some "chat2", some "guid1"⟩]).1 = 0)
    ∧ (countCreated
        (pollEmitMessages [] [⟨some "chat2", some "guid1"⟩]).1 = 1
      ∧ countCreated (sseOnNewMessage
          (pollEmitMessages [] [⟨some "chat2", some "guid1"⟩]).2
          (some "chat1") (some "guid1")).1 = 0) :=
  C9_push_poll_dedup [] "guid1" "chat1" "chat2" (by decide) (by decide)
    (by decide) (by decide) (by decide)

/-! ## Message shaping (src/utils/envelope.js `toMessageResponse`,
src/utils/attachments.js `normalizeAttachment(s)`)

The output object is embedded as an association list of JS values, so
that a key can genuinely be `undefined` or absent (the claims are about
exactly that).  The upstream record is a structure of optional fields —
`none` models a missing/`null`/`undefined` field.  `Date.now()` is the
explicit parameter `now`. -/

/-- A JS value as it appears in the shaped output. -/
inductive JVal where
  | null : JVal
  | undef : JVal
  | str : String → JVal
  | num : ℚ → JVal
  | bool : Bool → JVal
  | arr : List JVal → JVal
  | obj : List (String × JVal) → JVal

/-- An upstream attachment record as read by `normalizeAttachment`:
both camel-case and snake-case spellings of each field. -/
structure AttachIn where
  guid : Option String
  upperGUID : Option String
  originalROWID : Option ℤ
  original_rowid : Option ℤ
  uti : Option String
  mimeType : Option String
  mime_type : Option String
  transferName : Option String
  transfer_name : Option String
  totalBytes : Option ℚ
  total_bytes : Option ℚ
deriving DecidableEq, Repr

/-- `normalizeAttachment(a)` (src/utils/attachments.js): `none` input
models a `null`/non-object element; a record without a stable
identifier (`guid ?? GUID`) is dropped (`null`). -/
def normalizeAttachment (a : Option AttachIn) :
    Option (List (String × JVal)) :=
  match a with
  | none => none
  | some a =>
    match a.guid.orElse (fun _ => a.upperGUID) with
    | none => none
    | some g =>
      some
        [("originalROWID",
            match a.originalROWID.orElse (fun _ => a.original_rowid) with
            | some n => JVal.num (n : ℚ)
            | none => JVal.null),
          ("guid", JVal.str g),
          ("uti", JVal.str (a.uti.getD "")),
          ("mimeType", JVal.str ((a.mimeType.orElse
              (fun _ => a.mime_type)).getD "application/octet-stream")),
          ("transferName", JVal.str ((a.transferName.orElse
              (fun _ => a.transfer_name)).getD "")),
          ("totalBytes", JVal.num ((a.totalBytes.orElse
              (fun _ => a.total_bytes)).getD 0))]

/-- `normalizeAttachments(arr)`: non-arrays map to `[]`, invalid
entries are dropped. -/
def normalizeAttachments (arr : Option (List (Option AttachIn))) :
    List (List (String × JVal)) :=
  match arr with
  | none => []
  | some l => (l.map normalizeAttachment).reduceOption

/-- Host `Number(s)` on a string, modeled for decimal integer literals:
optional leading minus sign followed by digits parses exactly, and the
empty string parses to `0` (as in JS); anything else is NaN (`none`).
The shaping claims do not depend on the parse beyond totality. -/
def jsNumberOfString (s : String) : Option ℚ :=
  if s = "" then some 0
  else
    match s.data with
    | '-' :: rest =>
      if rest ≠ [] ∧ rest.all Char.isDigit then
        some (-(rest.foldl (fun acc c => acc * 10 + (c.toNat - 48)) 0 : ℕ))
      else none
    | ds =>
      if ds.all Char.isDigit then
        some ((ds.foldl (fun acc c => acc * 10 + (c.toNat - 48)) 0 : ℕ))
      else none

/-- The `handleId` / `otherHandle` coercion in `toMessageResponse`:
a string is passed through `Number(...)`, then any non-finite result
falls back to `0`. -/
def toFiniteNumberOr0 (v : Option (ℚ ⊕ String)) : ℚ :=
  match v with
  | none => 0
  | some (.inl q) => q
  | some (.inr s) => (jsNumberOfString s).getD 0

/-- An upstream message record as read by `toMessageResponse`: every
field optional. -/
structure UpMsg where
  originalROWID : Option ℤ
  original_rowid : Option ℤ
  tempGuid : Option String
  guid : Option String
  text : Option String
  handle : Option String
  handleId : Option (ℚ ⊕ String)
  otherHandle : Option (ℚ ⊕ String)
  attachments : Option (List (Option AttachIn))
  subject : Option String
  error : Option ℚ
  dateCreated : Option JSNum
  dateRead : Option JSNum
  dateDelivered : Option JSNum
  isFromMe : Option Bool
  isArchived : Option Bool
  itemType : Option ℤ
  groupTitle : Option String
  groupActionType : Option ℤ
  balloonBundleId : Option String
  associatedMessageGuid : Option String
  associatedMessageType : Option String
  chatGuid : Option String
deriving Repr

/-- The upstream record with every field missing. -/
def emptyUpMsg : UpMsg :=
  ⟨none, none, none, none, none, none, none, none, none, none, none,
    none, none, none, none, none, none, none, none, none, none, none,
    none⟩

/-- Embedding of `toMessageResponse(msg, chatGuid, chats, opts)`
(src/utils/envelope.js, lines 68–108).  `now` is `Date.now()`; the
output is the built object in field order, with the trailing
`if (!output.tempGuid) delete output.tempGuid` step. -/
def toMessageResponse (msg : UpMsg) (chatGuid : String)
    (chats : Option (List JVal)) (optsTempGuid : Option String)
    (now : ℤ) : List (String × JVal) :=
  let tempGuid : Option String :=
    optsTempGuid.orElse (fun _ => msg.tempGuid)
  let handleIdNum : ℚ := toFiniteNumberOr0 msg.handleId
  let otherHandleNum : ℚ := toFiniteNumberOr0 msg.otherHandle
  let output : List (String × JVal) :=
    [("originalROWID", JVal.num
        (((msg.originalROWID.orElse (fun _ => msg.original_rowid)).getD 0
          : ℤ) : ℚ)),
      ("tempGuid", match tempGuid with
        | some t => JVal.str t
        | none => JVal.undef),
      ("guid", match msg.guid with
        | some g => JVal.str g
        | none => JVal.null),
      ("text", JVal.str (msg.text.getD "")),
      ("handle", match msg.handle with
        | some h => JVal.str h
        | none => JVal.null),
      ("handleId", JVal.num handleIdNum),
      ("otherHandle", JVal.num otherHandleNum),
      ("chats", match chats with
        | some c => JVal.arr c
        | none => JVal.undef),
      ("attachments", JVal.arr
        ((normalizeAttachments (some (msg.attachments.getD []))).map
          JVal.obj)),
      ("subject", JVal.str (msg.subject.getD "")),
      ("error", JVal.num (msg.error.getD 0)),
      ("dateCreated", match toClientTimestamp msg.dateCreated with
        | some m => JVal.num (m : ℚ)
        | none => JVal.num (now : ℚ)),
      ("dateRead", match toClientTimestamp msg.dateRead with
        | some m => JVal.num (m : ℚ)
        | none => JVal.null),
      ("dateDelivered", match toClientTimestamp msg.dateDelivered with
        | some m => JVal.num (m : ℚ)
        | none => JVal.null),
      ("isFromMe", JVal.bool (msg.isFromMe.getD false)),
      ("isArchived", JVal.bool (msg.isArchived.getD false)),
      ("itemType", JVal.num ((msg.itemType.getD 0 : ℤ) : ℚ)),
      ("groupTitle", match msg.groupTitle with
        | some s => JVal.str s
        | none => JVal.null),
      ("groupActionType", JVal.num
        ((msg.groupActionType.getD 0 : ℤ) : ℚ)),
      ("balloonBundleId", match msg.balloonBundleId with
        | some s => JVal.str s
        | none => JVal.null),
      ("associatedMessageGuid", match msg.associatedMessageGuid with
        | some s => if s = "" then JVal.null else JVal.str s
        | none => JVal.null),
      ("associatedMessageType", match msg.associatedMessageType with
        | some s => if s = "" then JVal.null else JVal.str s
        | none => JVal.null),
      ("chatGuid", if chatGuid ≠ "" then JVal.str chatGuid
        else match msg.chatGuid with
          | some s => if s = "" then JVal.null else JVal.str s
          | none => JVal.null)]
  if optTruthy tempGuid then output
  else output.eraseP (fun kv => kv.1 = "tempGuid")

/-- C7 — counterexample.  For an upstream record with no `tempGuid` and
the default `chats = null`, the shaped output has no `tempGuid` key at
all (the code deletes it when falsy) and carries the literal
`undefined` under `chats` — so not every field of the canonical shape
is present with a typed default. -/
theorem C7_counterexample :
    (toMessageResponse emptyUpMsg "c" none none 5).lookup "tempGuid" = none
    ∧ (toMessageResponse emptyUpMsg "c" none none 5).lookup "chats"
      = some JVal.undef :=
  ⟨rfl, rfl⟩

/-- C7 (amended).  For every upstream message record, however partial,
and all shaping arguments, every field of the canonical client shape
other than the two optional keys `tempGuid` (deleted when absent or
empty) and `chats` (set to `undefined` when the `chats` argument is
null) is present in the output with a defined (non-`undefined`) typed
value. -/
theorem C7_shaping_total_amended (msg : UpMsg) (chatGuid : String)
    (chats : Option (List JVal)) (optsTempGuid : Option String)
    (now : ℤ) :
    ∀ k ∈ ["originalROWID", "guid", "text", "handle", "handleId",
        "otherHandle", "attachments", "subject", "error", "dateCreated",
        "dateRead", "dateDelivered", "isFromMe", "isArchived", "itemType",
        "groupTitle", "groupActionType", "balloonBundleId",
        "associatedMessageGuid", "associatedMessageType", "chatGuid"],
      ∃ v, (toMessageResponse msg chatGuid chats optsTempGuid now).lookup k
          = some v ∧ v ≠ JVal.undef := by
  intro k hk
  unfold toMessageResponse
  dsimp only
  fin_cases hk <;>
    [skip; skip; skip; skip; skip; skip; skip; skip; skip; skip; skip;
      skip; skip; skip; skip; skip; skip; skip; skip; skip; skip] <;>
    (split <;>
      (refine ⟨_, rfl, ?_⟩
       repeat' split
       all_goals simp))

/-- Witness for the amended C7 at the all-missing record and a concrete
key. -/
theorem C7_shaping_total_amended_witness :
    ∃ v, (toMessageResponse emptyUpMsg "c" none none 5).lookup "guid"
        = some v ∧ v ≠ JVal.undef :=
  C7_shaping_total_amended emptyUpMsg "c" none none 5 "guid" (by decide)

/-- C8 — counterexample.  The shaping function is not pure in the
claimed sense: it reads the clock.  For a record whose `dateCreated` is
missing, shaping the same record with the same arguments at two call
times (`Date.now()` readings 1 and 2) yields different outputs, because
the `dateCreated` fallback is the current time. -/
theorem C8_counterexample :
    toMessageResponse emptyUpMsg "c" none none 1
      ≠ toMessageResponse emptyUpMsg "c" none none 2 := by
  intro h
  have h2 : JVal.num (1 : ℚ) = JVal.num (2 : ℚ) :=
    Option.some.inj (congrArg (fun l => l.lookup "dateCreated") h)
  have h3 : (1 : ℚ) = 2 := JVal.num.inj h2
  norm_num at h3

/-- C8 (amended).  The shaping function is deterministic in its explicit
arguments plus the call time, and its only time dependence is the
`dateCreated` fallback: whenever the record's `dateCreated` converts
(`toClientTimestamp` is not null), shaping at any two call times yields
identical output — so repeated application with the same arguments
yields identical output for every record carrying a valid creation
date. -/
theorem C8_shaping_pure_amended (msg : UpMsg) (chatGuid : String)
    (chats : Option (List JVal)) (optsTempGuid : Option String)
    (now1 now2 : ℤ) (h : toClientTimestamp msg.dateCreated ≠ none) :
    toMessageResponse msg chatGuid chats optsTempGuid now1
      = toMessageResponse msg chatGuid chats optsTempGuid now2 := by
  obtain ⟨m, hm⟩ := Option.ne_none_iff_exists'.mp h
  unfold toMessageResponse
  dsimp only
  rw [hm]

/-- Witness for the amended C8: a record with a valid Apple-nanoseconds
creation date shapes identically at call times 1 and 2. -/
theorem C8_shaping_pure_amended_witness :
    toMessageResponse
        { emptyUpMsg with
            dateCreated := some (JSNum.num ((2000000000000000 : ℤ) : ℚ)) }
        "c" none none 1
      = toMessageResponse
        { emptyUpMsg with
            dateCreated := some (JSNum.num ((2000000000000000 : ℤ) : ℚ)) }
        "c" none none 2 :=
  C8_shaping_pure_amended _ "c" none none 1 2 (by
    rw [show ({ emptyUpMsg with
        dateCreated := some (JSNum.num ((2000000000000000 : ℤ) : ℚ)) }
          : UpMsg).dateCreated
        = some (JSNum.num ((2000000000000000 : ℤ) : ℚ)) from rfl,
      toClientTimestamp_ns 2000000000000000 (by norm_num)]
    simp)

end Bridge
